import Mathlib

/-!
Verification of the jail cell lifecycle from `geth/jail/cell.go`.

The file embeds the data model and operations of `cell.go` shallowly:

* Go `error` values become `Option GoError`, where a `GoError` carries an
  allocation identity (as produced by `errors.New`, which returns a fresh
  value on every call) and its message; `none` is Go's `nil` error.
* The cell's shared lifecycle fields (`cancel`, `loopStopped`, `loopErr`)
  become an explicit `CellState` record; the loop goroutine started by
  `NewCell` and the `select` inside `Stop` become pure state transformers,
  with the outcome of the `select` race supplied as an explicit input.
* The event-loop internals (`internal/loop`, `internal/looptask`,
  `internal/timers`, `internal/fetch`) are not part of the sources under
  verification; where an operation of theirs decides a property, it is
  modelled from the specification and marked `Modelled from the spec:` in
  its doc comment.
-/

namespace Jail

/-- A non-nil Go error value: `id` is its allocation identity (each call of
`errors.New` yields a distinct value even for equal messages), `msg` its
message. -/
structure GoError where
  id : Nat
  msg : String
  deriving DecidableEq, Repr

/-- The two host-binding packages whose `Define` is called by
`registerVMHandlers`, in source order. -/
inductive Handler where
  | timers
  | fetch
  deriving DecidableEq, Repr

/-- Embedding of `registerVMHandlers` from `cell.go`. The outcomes of
`timers.Define(vm, lo)` and `fetch.Define(vm, lo)` are parameters
(`none` = success); the second component records which `Define` calls were
actually attempted, in order. Source:
`if err := timers.Define(vm, lo); err != nil { return err };`
`if err := fetch.Define(vm, lo); err != nil { return err }; return nil`. -/
def registerVMHandlers (timersDefine fetchDefine : Option GoError) :
    Option GoError × List Handler :=
  match timersDefine with
  | some err => (some err, [Handler.timers])
  | none =>
    match fetchDefine with
    | some err => (some err, [Handler.timers, Handler.fetch])
    | none => (none, [Handler.timers, Handler.fetch])

/-- The lifecycle fields of a `Cell` that `NewCell`'s goroutine and `Stop`
share: whether the cancellation controller was tripped (`cancel`), whether
the `loopStopped` channel has been closed, the recorded terminal error
`loopErr`, and an allocation counter modelling the freshness of values
returned by `errors.New`. -/
structure CellState where
  cancelRequested : Bool
  loopStoppedClosed : Bool
  loopErr : Option GoError
  allocCounter : Nat
  deriving DecidableEq, Repr

/-- The `CellState` a freshly constructed cell starts in: cancellation not
requested, `loopStopped` open, `loopErr` nil. -/
def initialCellState (alloc : Nat) : CellState :=
  { cancelRequested := false
    loopStoppedClosed := false
    loopErr := none
    allocCounter := alloc }

/-- Embedding of the `Cell` struct of `cell.go` as far as construction is
concerned. `regErr` is the value `NewCell` received back from
`registerVMHandlers` and discarded (the call's result is not checked in the
source); `regAttempted` records which host bindings were attempted. -/
structure Cell where
  id : String
  regErr : Option GoError
  regAttempted : List Handler
  state : CellState
  deriving DecidableEq, Repr

/-- Embedding of `NewCell` from `cell.go`. Its Go signature is
`func NewCell(id string) *Cell`: there is no error result and the function
returns on every path, so the embedding is a total function into `Cell`.
The result of `registerVMHandlers(vm, lo)` is bound but never checked in
the source; the embedding records it in `regErr`. The background goroutine
is modelled separately by `loopGoroutine`. -/
def NewCell (id : String) (timersDefine fetchDefine : Option GoError) : Cell :=
  let reg := registerVMHandlers timersDefine fetchDefine
  { id := id
    regErr := reg.1
    regAttempted := reg.2
    state := initialCellState 0 }

/-- Modelled from the spec: the possible results of `loop.Run(ctx)`, which
lives in `internal/loop` (not among the sources). Per the spec, `Run` either
returns the cancellation-classified result (`context.Canceled`) when the
cancellation signal stops it between task executions, or a non-nil
loop-fatal error when a task body raises an unrecoverable fault. -/
inductive RunResult where
  | canceled
  | fatal (e : GoError)
  deriving DecidableEq, Repr

/-- Embedding of the goroutine body started by `NewCell`:
`err := lo.Run(ctx); if err != context.Canceled { cell.loopErr = err };`
`close(loopStopped)`. -/
def loopGoroutine (res : RunResult) (s : CellState) : CellState :=
  let s1 :=
    match res with
    | RunResult.canceled => s
    | RunResult.fatal e => { s with loopErr := some e }
  { s1 with loopStoppedClosed := true }

/-- The shared-state events the goroutine body performs, in program order,
used to reason about the write-before-close discipline. -/
inductive CellEvent where
  | writeLoopErr (e : Option GoError)
  | closeStopped
  deriving DecidableEq, Repr

/-- The goroutine body of `NewCell` as its sequence of shared-state events:
a conditional write of `loopErr` followed by `close(loopStopped)`. -/
def loopGoroutineEvents (res : RunResult) : List CellEvent :=
  match res with
  | RunResult.canceled => [CellEvent.closeStopped]
  | RunResult.fatal e => [CellEvent.writeLoopErr (some e), CellEvent.closeStopped]

/-- Replays a list of `CellEvent`s against a `CellState`. -/
def applyEvents (evs : List CellEvent) (s : CellState) : CellState :=
  match evs with
  | [] => s
  | CellEvent.writeLoopErr e :: rest => applyEvents rest { s with loopErr := e }
  | CellEvent.closeStopped :: rest => applyEvents rest { s with loopStoppedClosed := true }

/-- Embedding of `c.cancel()`: tripping the cancellation controller. A
`context.CancelFunc` is idempotent; tripping it can only set the flag. -/
def cancelTrip (s : CellState) : CellState :=
  { s with cancelRequested := true }

/-- The duration passed to `time.After` in `Stop`, in seconds
(`time.After(time.Second)`). -/
def stopWaitSeconds : Nat := 1

/-- The message of the error `Stop` constructs on timeout
(`errors.New("stopping the cell timed out")`). -/
def stopTimeoutMsg : String := "stopping the cell timed out"

/-- Embedding of `Cell.Stop` from `cell.go`:
`c.cancel(); select { case <-c.loopStopped: return c.loopErr;`
`case <-time.After(time.Second): return errors.New("stopping the cell timed out") }`.
A receive on a closed channel fires immediately, so the first branch is
taken whenever `loopStoppedClosed` already holds; otherwise the input
`closesDuringWait` says whether `loopStopped` is closed within the
one-second wait. The timeout branch allocates a fresh error value. -/
def Stop (s : CellState) (closesDuringWait : Bool) : Option GoError × CellState :=
  let s1 := cancelTrip s
  if s1.loopStoppedClosed || closesDuringWait then
    (s1.loopErr, { s1 with loopStoppedClosed := true })
  else
    (some { id := s1.allocCounter, msg := stopTimeoutMsg },
     { s1 with allocCounter := s1.allocCounter + 1 })

/-- Well-formedness of a `CellState` with respect to error allocation: any
error value already stored in `loopErr` was allocated before the current
allocation counter, so a freshly constructed error is distinct from it. -/
def CellState.wfAlloc (s : CellState) : Prop :=
  ∀ e, s.loopErr = some e → e.id < s.allocCounter

/-- Modelled from the spec: the interpreter-visible behavior of a script
function when the Loop invokes it with its captured arguments — it either
returns a value or raises a script-level exception. The interpreter's
language semantics are out of scope; a function value is represented by its
observable outcome, and values by strings. -/
inductive ScriptOutcome where
  | value (v : String)
  | exception (e : String)
  deriving DecidableEq, Repr

/-- A Call task as `looptask.NewCallTask(fn, args...)` captures it: the
function value and its arguments. -/
structure CallTask where
  fn : ScriptOutcome
  args : List String
  deriving DecidableEq, Repr

/-- Embedding of `looptask.NewCallTask` as used by `CallAsync`: constructs a
Call task from the function and its arguments. -/
def NewCallTask (fn : ScriptOutcome) (args : List String) : CallTask :=
  { fn := fn, args := args }

/-- The lifecycle of a task in the Loop's queue. -/
inductive TaskStatus where
  | pending
  | ready
  | done
  deriving DecidableEq, Repr

/-- A task as the Loop tracks it: identity, body, queue status, and the
value delivered on its completion signal once executed. -/
structure Task where
  tid : Nat
  fn : ScriptOutcome
  args : List String
  status : TaskStatus
  result : Option (Except String String)
  deriving Repr

/-- The operations performed against the Loop, in order. -/
inductive LoopOp where
  | add (tid : Nat)
  | ready (tid : Nat)
  | exec (tid : Nat)
  deriving DecidableEq, Repr

/-- The Loop's observable state: the id supply, the task queue, the trace of
operations performed on it, and the Loop's terminal error (set only by a
loop-fatal fault, never by a script exception). -/
structure LoopState where
  nextId : Nat
  tasks : List Task
  ops : List LoopOp
  terminalErr : Option GoError
  deriving Repr

/-- Modelled from the spec: `Loop.Add` (in `internal/loop`, not among the
sources) enqueues a task in pending state and never blocks; the embedding
assigns it a fresh id and returns the enqueued task. -/
def LoopAdd (lp : LoopState) (ct : CallTask) : Task × LoopState :=
  let t : Task :=
    { tid := lp.nextId, fn := ct.fn, args := ct.args
      status := TaskStatus.pending, result := none }
  (t,
   { lp with
     nextId := lp.nextId + 1
     tasks := lp.tasks ++ [t]
     ops := lp.ops ++ [LoopOp.add t.tid] })

/-- Modelled from the spec: execution of a Call task body on the Loop
thread. A script-level exception is caught and becomes the error half of the
completion value; it never becomes the Loop's terminal error. -/
def runCallBody (fn : ScriptOutcome) : Except String String :=
  match fn with
  | ScriptOutcome.value v => Except.ok v
  | ScriptOutcome.exception e => Except.error e

/-- Modelled from the spec: `Loop.Ready` (in `internal/loop`, not among the
sources) marks the task immediately runnable and blocks the calling thread
until the task has finished executing on the Loop thread; the value the
completion signal delivers to the blocked caller is returned. -/
def LoopReady (lp : LoopState) (t : Task) : Except String String × LoopState :=
  let r := runCallBody t.fn
  (r,
   { lp with
     tasks := lp.tasks.map fun u =>
       if u.tid = t.tid then { u with status := TaskStatus.done, result := some r } else u
     ops := lp.ops ++ [LoopOp.ready t.tid, LoopOp.exec t.tid] })

/-- Embedding of `Cell.CallAsync` from `cell.go`:
`task := looptask.NewCallTask(fn, args...); c.loop.Add(task); c.loop.Ready(task)`.
`Ready` blocks until the task has executed; the completion value is what the
caller conceptually receives as `(result, error)`. -/
def CallAsync (lp : LoopState) (fn : ScriptOutcome) (args : List String) :
    Except String String × LoopState :=
  let task := NewCallTask fn args
  let added := LoopAdd lp task
  LoopReady added.2 added.1

/-- C9: `registerVMHandlers` attempts the timer bindings first and the fetch
bindings second, returns the first registration error encountered, does not
attempt fetch registration when timer registration fails, and returns nil
exactly when both registrations succeed. -/
theorem registerVMHandlers_order_and_errors (t f : Option GoError) :
    (registerVMHandlers t f).2 =
      Handler.timers :: (if t = none then [Handler.fetch] else [])
    ∧ (∀ e, t = some e → registerVMHandlers t f = (some e, [Handler.timers]))
    ∧ (t = none → (registerVMHandlers t f).1 = f)
    ∧ ((registerVMHandlers t f).1 = none ↔ t = none ∧ f = none) := by
  cases t <;> cases f <;> simp [registerVMHandlers]

/-- Witness for C9 at a concrete failing timers registration. -/
theorem registerVMHandlers_order_and_errors_witness :
    registerVMHandlers (some ⟨0, "no timers"⟩) none
      = (some ⟨0, "no timers"⟩, [Handler.timers]) :=
  (registerVMHandlers_order_and_errors (some ⟨0, "no timers"⟩) none).2.1
    ⟨0, "no timers"⟩ rfl

/-- C1, evaluated at the failing input: when timer-binding registration
fails, `NewCell` nevertheless returns a constructed `Cell`; its lifecycle
state is identical to that of a cell whose registration succeeded, and the
registration error `NewCell` received back is discarded rather than
surfaced. `NewCell` cannot fail: its Go result type `*Cell` carries no error
and every path returns a cell. -/
theorem NewCell_returns_cell_despite_registration_failure :
    NewCell "cell1" (some ⟨0, "setTimeout registration failed"⟩) none
      = { id := "cell1"
          regErr := some ⟨0, "setTimeout registration failed"⟩
          regAttempted := [Handler.timers]
          state := initialCellState 0 }
    ∧ (NewCell "cell1" (some ⟨0, "setTimeout registration failed"⟩) none).state
        = (NewCell "cell1" none none).state := by
  exact ⟨rfl, rfl⟩

/-- C3: `Stop` trips the cancellation controller on every path, then waits
on the exit signal against the one-second timer (`stopWaitSeconds = 1`);
when the signal has not arrived and does not arrive during the wait it
returns the timeout-classified error at once, without having observed the
signal. -/
theorem Stop_trips_cancel_then_bounded_wait (s : CellState) (b : Bool) :
    (Stop s b).2.cancelRequested = true
    ∧ stopWaitSeconds = 1
    ∧ (s.loopStoppedClosed = false → b = false →
        (Stop s b).1 = some ⟨s.allocCounter, stopTimeoutMsg⟩
        ∧ (Stop s b).2.loopStoppedClosed = false) := by
  refine ⟨?_, rfl, ?_⟩
  · simp only [Stop, cancelTrip]
    split <;> rfl
  · intro h1 h2
    simp [Stop, cancelTrip, h1, h2]

/-- Witness for C3: a never-signalled cell times out. -/
theorem Stop_trips_cancel_then_bounded_wait_witness :
    (Stop (initialCellState 0) false).1 = some ⟨0, stopTimeoutMsg⟩
    ∧ (Stop (initialCellState 0) false).2.loopStoppedClosed = false :=
  (Stop_trips_cancel_then_bounded_wait (initialCellState 0) false).2.2 rfl rfl

/-- C4: once the loop goroutine has finished (so the exit signal is already
delivered and the select returns via the exit branch), `Stop` returns the
loop's terminal error, and that error is nil exactly when `Run` returned
the cancellation-classified result. -/
theorem Stop_returns_terminal_error_nil_iff_canceled
    (res : RunResult) (s0 : CellState) (b : Bool) (h0 : s0.loopErr = none) :
    (loopGoroutine res s0).loopStoppedClosed = true
    ∧ (Stop (loopGoroutine res s0) b).1 = (loopGoroutine res s0).loopErr
    ∧ ((Stop (loopGoroutine res s0) b).1 = none ↔ res = RunResult.canceled) := by
  cases res <;> simp [loopGoroutine, Stop, cancelTrip, h0]

/-- Witness for C4: a cancellation-terminated loop yields a nil `Stop`. -/
theorem Stop_returns_terminal_error_nil_iff_canceled_witness :
    (Stop (loopGoroutine RunResult.canceled (initialCellState 0)) true).1 = none :=
  ((Stop_returns_terminal_error_nil_iff_canceled RunResult.canceled
    (initialCellState 0) true rfl).2.2).mpr rfl

/-- C5: calling `Stop` more than once is safe: tripping the cancellation
controller twice equals tripping it once; if the first call returned via the
exit-signal branch, a second call returns the same terminal error for any
race input and still sees the signal delivered; if the first call timed out,
the signal is still unread and the second call waits on the same bound
again — timing out afresh or reading the unchanged terminal error. -/
theorem Stop_repeatable (s : CellState) (b1 b2 : Bool) :
    cancelTrip (cancelTrip s) = cancelTrip s
    ∧ ((s.loopStoppedClosed || b1) = true →
        (Stop (Stop s b1).2 b2).1 = (Stop s b1).1
        ∧ (Stop (Stop s b1).2 b2).2.loopStoppedClosed = true)
    ∧ ((s.loopStoppedClosed || b1) = false →
        (Stop s b1).2.loopStoppedClosed = false
        ∧ (b2 = false →
            (Stop (Stop s b1).2 b2).1
              = some ⟨s.allocCounter + 1, stopTimeoutMsg⟩)
        ∧ (b2 = true → (Stop (Stop s b1).2 b2).1 = s.loopErr)) := by
  cases hs : s.loopStoppedClosed <;> cases b1 <;> cases b2 <;>
    simp [Stop, cancelTrip, hs]

/-- Witness for C5: after an exit-branch `Stop`, a second `Stop` returns the
same result. -/
theorem Stop_repeatable_witness :
    (Stop (Stop (initialCellState 0) true).2 false).1
      = (Stop (initialCellState 0) true).1 :=
  ((Stop_repeatable (initialCellState 0) true false).2.1 rfl).1

/-- C8: the goroutine body either performs no write of `loopErr` before
closing `loopStopped`, or performs exactly one write — of the final terminal
value — immediately before the close; replaying its events yields exactly
the goroutine's final state, and a `Stop` that returns via the exit-signal
branch reads precisely that final value. -/
theorem loopErr_written_once_before_close
    (res : RunResult) (s0 : CellState) (b : Bool) :
    (loopGoroutineEvents res = [CellEvent.closeStopped]
      ∨ loopGoroutineEvents res =
          [CellEvent.writeLoopErr ((loopGoroutine res s0).loopErr),
           CellEvent.closeStopped])
    ∧ applyEvents (loopGoroutineEvents res) s0 = loopGoroutine res s0
    ∧ (Stop (loopGoroutine res s0) b).1 = (loopGoroutine res s0).loopErr := by
  cases res <;> simp [loopGoroutineEvents, loopGoroutine, applyEvents, Stop, cancelTrip]

/-- C10: when `Stop` times out it returns a freshly allocated error carrying
the message "stopping the cell timed out"; it is non-nil and, because every
error stored earlier was allocated below the current counter, distinct from
the loop's terminal error — so a timeout is distinguishable both from
successful cancellation (nil) and from a loop-fatal error. -/
theorem Stop_timeout_error_fresh_and_distinct
    (s : CellState) (hwf : s.wfAlloc) (hopen : s.loopStoppedClosed = false) :
    (Stop s false).1 = some ⟨s.allocCounter, stopTimeoutMsg⟩
    ∧ (Stop s false).1 ≠ none
    ∧ (Stop s false).1 ≠ s.loopErr := by
  have h1 : (Stop s false).1 = some ⟨s.allocCounter, stopTimeoutMsg⟩ := by
    simp [Stop, cancelTrip, hopen]
  refine ⟨h1, by simp [h1], ?_⟩
  rw [h1]
  cases hle : s.loopErr with
  | none => simp
  | some e =>
    have hlt := hwf e hle
    simp only [Ne, Option.some.injEq]
    intro he
    rw [← he] at hlt
    simp at hlt

/-- Witness for C10: with a loop-fatal error recorded, the timeout error is
a different error value. -/
theorem Stop_timeout_error_fresh_and_distinct_witness :
    (Stop { cancelRequested := false, loopStoppedClosed := false,
            loopErr := some ⟨0, "vm fault"⟩, allocCounter := 1 } false).1
      ≠ some ⟨0, "vm fault"⟩ :=
  (Stop_timeout_error_fresh_and_distinct
    { cancelRequested := false, loopStoppedClosed := false,
      loopErr := some ⟨0, "vm fault"⟩, allocCounter := 1 }
    (fun e he => by cases he; exact Nat.zero_lt_one) rfl).2.2

/-- C7: `CallAsync` constructs a Call task from `fn` and `args`, adds it to
the Loop, then marks it Ready; when the call returns, that task has been
executed to completion on the Loop (status done, completion value
delivered to the blocked caller), so the invoking thread was held until the
task finished. -/
theorem CallAsync_adds_then_readies_then_blocks
    (lp : LoopState) (fn : ScriptOutcome) (args : List String) :
    (CallAsync lp fn args).2.ops =
      lp.ops ++ [LoopOp.add lp.nextId, LoopOp.ready lp.nextId, LoopOp.exec lp.nextId]
    ∧ ({ tid := lp.nextId, fn := fn, args := args, status := TaskStatus.done,
         result := some (runCallBody fn) } : Task) ∈ (CallAsync lp fn args).2.tasks
    ∧ (CallAsync lp fn args).1 = runCallBody fn := by
  refine ⟨?_, ?_, rfl⟩
  · simp [CallAsync, LoopAdd, LoopReady, NewCallTask]
  · simp [CallAsync, LoopAdd, LoopReady, NewCallTask]

/-- C2: a script-level exception raised inside `fn` is captured and
delivered to the `CallAsync` caller as the error half of the completion
value (conceptually `(result, error)`), the Loop's terminal error is
untouched, and the Loop still executes subsequent tasks normally. -/
theorem CallAsync_reports_exception_to_caller
    (lp : LoopState) (e : String) (args : List String) :
    (CallAsync lp (ScriptOutcome.exception e) args).1 = Except.error e
    ∧ (CallAsync lp (ScriptOutcome.exception e) args).2.terminalErr = lp.terminalErr
    ∧ ∀ v args2,
        (CallAsync (CallAsync lp (ScriptOutcome.exception e) args).2
          (ScriptOutcome.value v) args2).1 = Except.ok v := by
  exact ⟨rfl, rfl, fun v args2 => rfl⟩

end Jail
